import Mathlib

/-!
Verification of the adaptive signal-control subsystem of the Traffic_DMAS
repository (files `controller.py`, `trafficlight.py`, `grid.py`).

The demand-based system is shallowly embedded:
* `Light` carries the fields of `Traffic_light` used by the demand-based
  path (`calculate_demand` + `timer3`); the fixed-time `timer1`/`timer2`
  machinery and the inert `turn` tag are outside every claim.
* `Controller` carries `green_lights`, `time` and `delay_limit` from
  `Controller.__init__`.
* Car occupancy of the grid is the external input of the lane sensor
  (`car_present`): a per-tick function from cell coordinates to `Bool`;
  cars are spawned and moved by collaborators outside the core.
* `grid.py` registers the twelve lights with the `BaseScheduler` before the
  controller, so one model tick is: every light runs `calculate_demand`
  then `timer3` against the current controller state, then the controller
  runs `determine_light` on the freshly sensed lights.  `timer3`'s lookup
  of the controller agent at cell (0, 0) is modelled as a direct reference.
-/

namespace Traffic

inductive Direction : Type
  | east
  | west
  | north
  | south
deriving DecidableEq

inductive Color : Type
  | red
  | green
deriving DecidableEq

/-- The fields of `Traffic_light` read or written by `calculate_demand`,
`timer3` and the controller (`trafficlight.py`). -/
structure Light : Type where
  direction : Direction
  color : Color
  demand : Nat
  waiting_time : Nat
  car_waiting : Bool
  pos : Int × Int
deriving DecidableEq

/-- The state of `Controller` (`controller.py`, `__init__`):
`green_lights = 'east'`, `time = 0`, `delay_limit = 60`. -/
structure Controller : Type where
  green_lights : Direction
  time : Nat
  delay_limit : Int
deriving DecidableEq

/-- The cell probed at offset `i` of a light's sensing loop
(`Traffic_light.calculate_demand`): east checks `(x - i, y)`, west
`(x + i, y)`, south `(x, y + i)`, north `(x, y - i)`. -/
def cellAt (d : Direction) (p : Int × Int) (i : Nat) : Int × Int :=
  match d with
  | Direction.east => (p.1 - i, p.2)
  | Direction.west => (p.1 + i, p.2)
  | Direction.south => (p.1, p.2 + i)
  | Direction.north => (p.1, p.2 - i)

/-- `car_present` at offset `i` of the light's window, with the grid
occupancy given as the external input `occ`. -/
def occAt (occ : Int → Int → Bool) (l : Light) (i : Nat) : Bool :=
  occ (cellAt l.direction l.pos i).1 (cellAt l.direction l.pos i).2

/-- `Traffic_light.update_variables`: increment `demand`; at offset 0 set
`car_waiting` and increment `waiting_time`. -/
def update_variables (l : Light) (i : Nat) : Light :=
  { l with
    demand := l.demand + 1
    car_waiting := if i = 0 then true else l.car_waiting
    waiting_time := if i = 0 then l.waiting_time + 1 else l.waiting_time }

/-- One iteration of the `for i in range(0,10)` loop of
`Traffic_light.calculate_demand`. -/
def senseStep (occ : Int → Int → Bool) (acc : Light) (i : Nat) : Light :=
  if occAt occ acc i then update_variables acc i else acc

/-- `Traffic_light.calculate_demand`: reset `demand` and `car_waiting`,
then scan the 10 cells at offsets 0..9 of the approach window. -/
def calculate_demand (occ : Int → Int → Bool) (l : Light) : Light :=
  (List.range 10).foldl (senseStep occ) { l with demand := 0, car_waiting := false }

/-- `Traffic_light.timer3`: green and reset `waiting_time` iff the light's
direction is the controller's `green_lights` and `controller.time > 7`,
red otherwise. -/
def timer3 (c : Controller) (l : Light) : Light :=
  if l.direction = c.green_lights ∧ c.time > 7 then
    { l with color := Color.green, waiting_time := 0 }
  else
    { l with color := Color.red }

/-- `Controller.combine_demands`: per-direction sums of the lights'
demands, the dict built in key order east, west, north, south. -/
def combine_demands (lights : List Light) : Direction → Nat :=
  fun d => lights.foldl (fun acc l => if l.direction = d then acc + l.demand else acc) 0

/-- `max(demands, key=demands.get)` over the dict with insertion order
east, west, north, south: Python's `max` keeps the first maximal key,
replacing the current best only on a strictly greater value. -/
def highest_demand (demands : Direction → Nat) : Direction :=
  [Direction.west, Direction.north, Direction.south].foldl
    (fun best d => if demands d > demands best then d else best) Direction.east

/-- The predicate scanned by `Controller.car_waiting_long`:
`light.get_waiting_time() > self.delay_limit`. -/
def starves (limit : Int) (l : Light) : Bool :=
  decide ((l.waiting_time : Int) > limit)

/-- `Controller.car_waiting_long`: on the first light whose `waiting_time`
exceeds `delay_limit`, set `green_lights` to its direction and, when
`time > 8`, reset `time` and add 16 to `delay_limit`; return whether such
a light was found. -/
def car_waiting_long (lights : List Light) (c : Controller) : Controller × Bool :=
  match List.find? (starves c.delay_limit) lights with
  | some l =>
      ({ c with
          green_lights := l.direction
          time := if c.time > 8 then 0 else c.time
          delay_limit := if c.time > 8 then c.delay_limit + 16 else c.delay_limit }, true)
  | none => (c, false)

/-- `Controller.check_delay_limit`: when `delay_limit > 60`, subtract 16
unless some light's `waiting_time` exceeds `delay_limit - 16` (the loop
returns early on the first such light). -/
def check_delay_limit (lights : List Light) (c : Controller) : Controller :=
  if c.delay_limit > 60 then
    if lights.any (fun l => decide ((l.waiting_time : Int) > c.delay_limit - 16)) then c
    else { c with delay_limit := c.delay_limit - 16 }
  else c

/-- `Controller.car_waiting`: returns `False` as soon as some light of the
authorized direction has `car_waiting == False`, else `True`. -/
def car_waiting (lights : List Light) (g : Direction) : Bool :=
  !(lights.any fun l => decide (l.direction = g) && !l.car_waiting)

/-- The hysteresis tail of `Controller.determine_light` (lines 21-24):
switch `green_lights` to the highest-demand direction and reset `time`
when the margin of 6 is met and `not self.car_waiting()`. -/
def hysteresis_step (lights : List Light) (c : Controller) : Controller :=
  if (combine_demands lights c.green_lights : Int)
      < (combine_demands lights (highest_demand (combine_demands lights)) : Int) - 6 then
    if car_waiting lights c.green_lights = false then
      { c with green_lights := highest_demand (combine_demands lights), time := 0 }
    else c
  else c

/-- `Controller.determine_light`: increment `time`, aggregate demands,
apply `check_delay_limit`, then run the hysteresis switch only when the
starvation override `car_waiting_long` did not fire. -/
def determine_light (lights : List Light) (c : Controller) : Controller :=
  let r := car_waiting_long lights (check_delay_limit lights { c with time := c.time + 1 })
  if r.2 = false then hysteresis_step lights r.1 else r.1

/-- The whole simulation state of the demand-based system. -/
structure ModelState : Type where
  lights : List Light
  ctrl : Controller
deriving DecidableEq

/-- The lights' pass of one scheduler step: each `Traffic_light.step` runs
`calculate_demand` then `timer3` against the current controller state. -/
def lightsStep (occ : Int → Int → Bool) (s : ModelState) : ModelState :=
  { s with lights := s.lights.map (fun l => timer3 s.ctrl (calculate_demand occ l)) }

/-- One model tick (`BaseScheduler` order from `grid.py`): the twelve
lights step first, then `Controller.step` runs `determine_light` on the
freshly sensed lights. -/
def modelStep (occ : Int → Int → Bool) (s : ModelState) : ModelState :=
  let s1 := lightsStep occ s
  { s1 with ctrl := determine_light s1.lights s1.ctrl }

/-- A freshly constructed `Traffic_light`: red, zero counters. -/
def mkLight (x y : Int) (d : Direction) : Light :=
  { direction := d
    color := Color.red
    demand := 0
    waiting_time := 0
    car_waiting := false
    pos := (x, y) }

/-- The twelve lights of `Grid.add_traffic_lights`, in registration order. -/
def initLights : List Light :=
  [mkLight 9 9 Direction.east, mkLight 9 10 Direction.east, mkLight 9 11 Direction.east,
   mkLight 15 13 Direction.west, mkLight 15 14 Direction.west, mkLight 15 15 Direction.west,
   mkLight 13 9 Direction.north, mkLight 14 9 Direction.north, mkLight 15 9 Direction.north,
   mkLight 9 15 Direction.south, mkLight 10 15 Direction.south, mkLight 11 15 Direction.south]

/-- The initial simulation state built by `Grid.__init__`. -/
def initState : ModelState :=
  { lights := initLights
    ctrl := { green_lights := Direction.east, time := 0, delay_limit := 60 } }

/-- Run `n` ticks from `s0`, the occupancy of tick `k` given by `env k`. -/
def runFrom (env : Nat → Int → Int → Bool) (s0 : ModelState) : Nat → ModelState
  | 0 => s0
  | n + 1 => modelStep (env n) (runFrom env s0 n)

/-- A state is reachable when some occupancy history produces it from the
initial state. -/
def Reachable (s : ModelState) : Prop :=
  ∃ env n, runFrom env initState n = s

/-- The `n`-th light of a state (the registration index of
`Grid.add_traffic_lights`). -/
def nthLight (s : ModelState) (n : Nat) : Light :=
  s.lights.getD n (mkLight 0 0 Direction.east)

/-- Occupancy history: a car sits permanently at the stop line of the
north light at (14, 9) and of the south light at (10, 15). -/
def envC2 : Nat → Int → Int → Bool :=
  fun _ x y => (x == 14 && y == 9) || (x == 10 && y == 15)

/-- Occupancy history: a car sits permanently at the stop line of the
north light at (14, 9); on tick index 59 seven cars occupy offsets 1..7
of the west light at (15, 14). -/
def envC5 : Nat → Int → Int → Bool :=
  fun t x y => (x == 14 && y == 9) ||
    (t == 59 && y == 14 &&
      (x == 16 || x == 17 || x == 18 || x == 19 || x == 20 || x == 21 || x == 22))

/-- Occupancy history: a car sits permanently at the stop line of the
north light at (14, 9); a car sits at the stop line of the south light at
(10, 15) for the first 60 ticks only. -/
def envC6 : Nat → Int → Int → Bool :=
  fun t x y => (x == 14 && y == 9) || (t < 60 && x == 10 && y == 15)

/-- Occupancy: a car at the stop line of the east light at (9, 10) and
eight cars at offsets 0..7 of the north light at (14, 9). -/
def envC3 : Nat → Int → Int → Bool :=
  fun _ x y => (x == 9 && y == 10) ||
    (x == 14 && (y == 2 || y == 3 || y == 4 || y == 5 || y == 6 || y == 7 || y == 8 || y == 9))

/-- The empty occupancy history. -/
def envNone : Nat → Int → Int → Bool :=
  fun _ _ _ => false

/-- Position of a direction in the construction order of the demand dict
(`{'east': 0, 'west': 0, 'north': 0, 'south': 0}`). -/
def dirIndex : Direction → Nat
  | Direction.east => 0
  | Direction.west => 1
  | Direction.north => 2
  | Direction.south => 3

/-- A north light with a car long overdue (`waiting_time = 61`), a
concrete input for exercising the starvation override. -/
def starvedLight : Light :=
  ⟨Direction.north, Color.red, 1, 61, true, (14, 9)⟩

/-- A controller state that has authorized north for more than 7 ticks,
a concrete input for exercising the actuation rules. -/
def northCtrl : Controller :=
  ⟨Direction.north, 9, 60⟩

/-- A controller state 20 ticks after the last switch, still authorizing
east, a concrete input for exercising the starvation escalation. -/
def escCtrl : Controller :=
  ⟨Direction.east, 20, 60⟩

/-- A one-light state whose north light is long overdue while east is
authorized, a concrete input for exercising how an exceedance ends. -/
def escState : ModelState :=
  { lights := [starvedLight], ctrl := escCtrl }

/-- Checkpoint: the simulation state after 10 ticks under `envC2`. -/
def SC2_10 : ModelState :=
  { lights :=
      [⟨Direction.east, Color.green, 0, 0, false, (9, 9)⟩,
       ⟨Direction.east, Color.green, 0, 0, false, (9, 10)⟩,
       ⟨Direction.east, Color.green, 0, 0, false, (9, 11)⟩,
       ⟨Direction.west, Color.red, 0, 0, false, (15, 13)⟩,
       ⟨Direction.west, Color.red, 0, 0, false, (15, 14)⟩,
       ⟨Direction.west, Color.red, 0, 0, false, (15, 15)⟩,
       ⟨Direction.north, Color.red, 0, 0, false, (13, 9)⟩,
       ⟨Direction.north, Color.red, 1, 10, true, (14, 9)⟩,
       ⟨Direction.north, Color.red, 0, 0, false, (15, 9)⟩,
       ⟨Direction.south, Color.red, 0, 0, false, (9, 15)⟩,
       ⟨Direction.south, Color.red, 1, 10, true, (10, 15)⟩,
       ⟨Direction.south, Color.red, 0, 0, false, (11, 15)⟩],
    ctrl := ⟨Direction.east, 10, 60⟩ }

/-- Checkpoint: the simulation state after 20 ticks under `envC2`. -/
def SC2_20 : ModelState :=
  { lights :=
      [⟨Direction.east, Color.green, 0, 0, false, (9, 9)⟩,
       ⟨Direction.east, Color.green, 0, 0, false, (9, 10)⟩,
       ⟨Direction.east, Color.green, 0, 0, false, (9, 11)⟩,
       ⟨Direction.west, Color.red, 0, 0, false, (15, 13)⟩,
       ⟨Direction.west, Color.red, 0, 0, false, (15, 14)⟩,
       ⟨Direction.west, Color.red, 0, 0, false, (15, 15)⟩,
       ⟨Direction.north, Color.red, 0, 0, false, (13, 9)⟩,
       ⟨Direction.north, Color.red, 1, 20, true, (14, 9)⟩,
       ⟨Direction.north, Color.red, 0, 0, false, (15, 9)⟩,
       ⟨Direction.south, Color.red, 0, 0, false, (9, 15)⟩,
       ⟨Direction.south, Color.red, 1, 20, true, (10, 15)⟩,
       ⟨Direction.south, Color.red, 0, 0, false, (11, 15)⟩],
    ctrl := ⟨Direction.east, 20, 60⟩ }

/-- Checkpoint: the simulation state after 30 ticks under `envC2`. -/
def SC2_30 : ModelState :=
  { lights :=
      [⟨Direction.east, Color.green, 0, 0, false, (9, 9)⟩,
       ⟨Direction.east, Color.green, 0, 0, false, (9, 10)⟩,
       ⟨Direction.east, Color.green, 0, 0, false, (9, 11)⟩,
       ⟨Direction.west, Color.red, 0, 0, false, (15, 13)⟩,
       ⟨Direction.west, Color.red, 0, 0, false, (15, 14)⟩,
       ⟨Direction.west, Color.red, 0, 0, false, (15, 15)⟩,
       ⟨Direction.north, Color.red, 0, 0, false, (13, 9)⟩,
       ⟨Direction.north, Color.red, 1, 30, true, (14, 9)⟩,
       ⟨Direction.north, Color.red, 0, 0, false, (15, 9)⟩,
       ⟨Direction.south, Color.red, 0, 0, false, (9, 15)⟩,
       ⟨Direction.south, Color.red, 1, 30, true, (10, 15)⟩,
       ⟨Direction.south, Color.red, 0, 0, false, (11, 15)⟩],
    ctrl := ⟨Direction.east, 30, 60⟩ }

/-- Checkpoint: the simulation state after 40 ticks under `envC2`. -/
def SC2_40 : ModelState :=
  { lights :=
      [⟨Direction.east, Color.green, 0, 0, false, (9, 9)⟩,
       ⟨Direction.east, Color.green, 0, 0, false, (9, 10)⟩,
       ⟨Direction.east, Color.green, 0, 0, false, (9, 11)⟩,
       ⟨Direction.west, Color.red, 0, 0, false, (15, 13)⟩,
       ⟨Direction.west, Color.red, 0, 0, false, (15, 14)⟩,
       ⟨Direction.west, Color.red, 0, 0, false, (15, 15)⟩,
       ⟨Direction.north, Color.red, 0, 0, false, (13, 9)⟩,
       ⟨Direction.north, Color.red, 1, 40, true, (14, 9)⟩,
       ⟨Direction.north, Color.red, 0, 0, false, (15, 9)⟩,
       ⟨Direction.south, Color.red, 0, 0, false, (9, 15)⟩,
       ⟨Direction.south, Color.red, 1, 40, true, (10, 15)⟩,
       ⟨Direction.south, Color.red, 0, 0, false, (11, 15)⟩],
    ctrl := ⟨Direction.east, 40, 60⟩ }

/-- Checkpoint: the simulation state after 50 ticks under `envC2`. -/
def SC2_50 : ModelState :=
  { lights :=
      [⟨Direction.east, Color.green, 0, 0, false, (9, 9)⟩,
       ⟨Direction.east, Color.green, 0, 0, false, (9, 10)⟩,
       ⟨Direction.east, Color.green, 0, 0, false, (9, 11)⟩,
       ⟨Direction.west, Color.red, 0, 0, false, (15, 13)⟩,
       ⟨Direction.west, Color.red, 0, 0, false, (15, 14)⟩,
       ⟨Direction.west, Color.red, 0, 0, false, (15, 15)⟩,
       ⟨Direction.north, Color.red, 0, 0, false, (13, 9)⟩,
       ⟨Direction.north, Color.red, 1, 50, true, (14, 9)⟩,
       ⟨Direction.north, Color.red, 0, 0, false, (15, 9)⟩,
       ⟨Direction.south, Color.red, 0, 0, false, (9, 15)⟩,
       ⟨Direction.south, Color.red, 1, 50, true, (10, 15)⟩,
       ⟨Direction.south, Color.red, 0, 0, false, (11, 15)⟩],
    ctrl := ⟨Direction.east, 50, 60⟩ }

/-- Checkpoint: the simulation state after 60 ticks under `envC2`. -/
def SC2_60 : ModelState :=
  { lights :=
      [⟨Direction.east, Color.green, 0, 0, false, (9, 9)⟩,
       ⟨Direction.east, Color.green, 0, 0, false, (9, 10)⟩,
       ⟨Direction.east, Color.green, 0, 0, false, (9, 11)⟩,
       ⟨Direction.west, Color.red, 0, 0, false, (15, 13)⟩,
       ⟨Direction.west, Color.red, 0, 0, false, (15, 14)⟩,
       ⟨Direction.west, Color.red, 0, 0, false, (15, 15)⟩,
       ⟨Direction.north, Color.red, 0, 0, false, (13, 9)⟩,
       ⟨Direction.north, Color.red, 1, 60, true, (14, 9)⟩,
       ⟨Direction.north, Color.red, 0, 0, false, (15, 9)⟩,
       ⟨Direction.south, Color.red, 0, 0, false, (9, 15)⟩,
       ⟨Direction.south, Color.red, 1, 60, true, (10, 15)⟩,
       ⟨Direction.south, Color.red, 0, 0, false, (11, 15)⟩],
    ctrl := ⟨Direction.east, 60, 60⟩ }

/-- Checkpoint: the simulation state after 70 ticks under `envC2`. -/
def SC2_70 : ModelState :=
  { lights :=
      [⟨Direction.east, Color.red, 0, 0, false, (9, 9)⟩,
       ⟨Direction.east, Color.red, 0, 0, false, (9, 10)⟩,
       ⟨Direction.east, Color.red, 0, 0, false, (9, 11)⟩,
       ⟨Direction.west, Color.red, 0, 0, false, (15, 13)⟩,
       ⟨Direction.west, Color.red, 0, 0, false, (15, 14)⟩,
       ⟨Direction.west, Color.red, 0, 0, false, (15, 15)⟩,
       ⟨Direction.north, Color.green, 0, 0, false, (13, 9)⟩,
       ⟨Direction.north, Color.green, 1, 0, true, (14, 9)⟩,
       ⟨Direction.north, Color.green, 0, 0, false, (15, 9)⟩,
       ⟨Direction.south, Color.red, 0, 0, false, (9, 15)⟩,
       ⟨Direction.south, Color.red, 1, 70, true, (10, 15)⟩,
       ⟨Direction.south, Color.red, 0, 0, false, (11, 15)⟩],
    ctrl := ⟨Direction.north, 9, 76⟩ }

/-- Checkpoint: the simulation state after 10 ticks under `envC5`. -/
def SC5_10 : ModelState :=
  { lights :=
      [⟨Direction.east, Color.green, 0, 0, false, (9, 9)⟩,
       ⟨Direction.east, Color.green, 0, 0, false, (9, 10)⟩,
       ⟨Direction.east, Color.green, 0, 0, false, (9, 11)⟩,
       ⟨Direction.west, Color.red, 0, 0, false, (15, 13)⟩,
       ⟨Direction.west, Color.red, 0, 0, false, (15, 14)⟩,
       ⟨Direction.west, Color.red, 0, 0, false, (15, 15)⟩,
       ⟨Direction.north, Color.red, 0, 0, false, (13, 9)⟩,
       ⟨Direction.north, Color.red, 1, 10, true, (14, 9)⟩,
       ⟨Direction.north, Color.red, 0, 0, false, (15, 9)⟩,
       ⟨Direction.south, Color.red, 0, 0, false, (9, 15)⟩,
       ⟨Direction.south, Color.red, 0, 0, false, (10, 15)⟩,
       ⟨Direction.south, Color.red, 0, 0, false, (11, 15)⟩],
    ctrl := ⟨Direction.east, 10, 60⟩ }

/-- Checkpoint: the simulation state after 20 ticks under `envC5`. -/
def SC5_20 : ModelState :=
  { lights :=
      [⟨Direction.east, Color.green, 0, 0, false, (9, 9)⟩,
       ⟨Direction.east, Color.green, 0, 0, false, (9, 10)⟩,
       ⟨Direction.east, Color.green, 0, 0, false, (9, 11)⟩,
       ⟨Direction.west, Color.red, 0, 0, false, (15, 13)⟩,
       ⟨Direction.west, Color.red, 0, 0, false, (15, 14)⟩,
       ⟨Direction.west, Color.red, 0, 0, false, (15, 15)⟩,
       ⟨Direction.north, Color.red, 0, 0, false, (13, 9)⟩,
       ⟨Direction.north, Color.red, 1, 20, true, (14, 9)⟩,
       ⟨Direction.north, Color.red, 0, 0, false, (15, 9)⟩,
       ⟨Direction.south, Color.red, 0, 0, false, (9, 15)⟩,
       ⟨Direction.south, Color.red, 0, 0, false, (10, 15)⟩,
       ⟨Direction.south, Color.red, 0, 0, false, (11, 15)⟩],
    ctrl := ⟨Direction.east, 20, 60⟩ }

/-- Checkpoint: the simulation state after 30 ticks under `envC5`. -/
def SC5_30 : ModelState :=
  { lights :=
      [⟨Direction.east, Color.green, 0, 0, false, (9, 9)⟩,
       ⟨Direction.east, Color.green, 0, 0, false, (9, 10)⟩,
       ⟨Direction.east, Color.green, 0, 0, false, (9, 11)⟩,
       ⟨Direction.west, Color.red, 0, 0, false, (15, 13)⟩,
       ⟨Direction.west, Color.red, 0, 0, false, (15, 14)⟩,
       ⟨Direction.west, Color.red, 0, 0, false, (15, 15)⟩,
       ⟨Direction.north, Color.red, 0, 0, false, (13, 9)⟩,
       ⟨Direction.north, Color.red, 1, 30, true, (14, 9)⟩,
       ⟨Direction.north, Color.red, 0, 0, false, (15, 9)⟩,
       ⟨Direction.south, Color.red, 0, 0, false, (9, 15)⟩,
       ⟨Direction.south, Color.red, 0, 0, false, (10, 15)⟩,
       ⟨Direction.south, Color.red, 0, 0, false, (11, 15)⟩],
    ctrl := ⟨Direction.east, 30, 60⟩ }

/-- Checkpoint: the simulation state after 40 ticks under `envC5`. -/
def SC5_40 : ModelState :=
  { lights :=
      [⟨Direction.east, Color.green, 0, 0, false, (9, 9)⟩,
       ⟨Direction.east, Color.green, 0, 0, false, (9, 10)⟩,
       ⟨Direction.east, Color.green, 0, 0, false, (9, 11)⟩,
       ⟨Direction.west, Color.red, 0, 0, false, (15, 13)⟩,
       ⟨Direction.west, Color.red, 0, 0, false, (15, 14)⟩,
       ⟨Direction.west, Color.red, 0, 0, false, (15, 15)⟩,
       ⟨Direction.north, Color.red, 0, 0, false, (13, 9)⟩,
       ⟨Direction.north, Color.red, 1, 40, true, (14, 9)⟩,
       ⟨Direction.north, Color.red, 0, 0, false, (15, 9)⟩,
       ⟨Direction.south, Color.red, 0, 0, false, (9, 15)⟩,
       ⟨Direction.south, Color.red, 0, 0, false, (10, 15)⟩,
       ⟨Direction.south, Color.red, 0, 0, false, (11, 15)⟩],
    ctrl := ⟨Direction.east, 40, 60⟩ }

/-- Checkpoint: the simulation state after 50 ticks under `envC5`. -/
def SC5_50 : ModelState :=
  { lights :=
      [⟨Direction.east, Color.green, 0, 0, false, (9, 9)⟩,
       ⟨Direction.east, Color.green, 0, 0, false, (9, 10)⟩,
       ⟨Direction.east, Color.green, 0, 0, false, (9, 11)⟩,
       ⟨Direction.west, Color.red, 0, 0, false, (15, 13)⟩,
       ⟨Direction.west, Color.red, 0, 0, false, (15, 14)⟩,
       ⟨Direction.west, Color.red, 0, 0, false, (15, 15)⟩,
       ⟨Direction.north, Color.red, 0, 0, false, (13, 9)⟩,
       ⟨Direction.north, Color.red, 1, 50, true, (14, 9)⟩,
       ⟨Direction.north, Color.red, 0, 0, false, (15, 9)⟩,
       ⟨Direction.south, Color.red, 0, 0, false, (9, 15)⟩,
       ⟨Direction.south, Color.red, 0, 0, false, (10, 15)⟩,
       ⟨Direction.south, Color.red, 0, 0, false, (11, 15)⟩],
    ctrl := ⟨Direction.east, 50, 60⟩ }

/-- Checkpoint: the simulation state after 60 ticks under `envC5`. -/
def SC5_60 : ModelState :=
  { lights :=
      [⟨Direction.east, Color.green, 0, 0, false, (9, 9)⟩,
       ⟨Direction.east, Color.green, 0, 0, false, (9, 10)⟩,
       ⟨Direction.east, Color.green, 0, 0, false, (9, 11)⟩,
       ⟨Direction.west, Color.red, 0, 0, false, (15, 13)⟩,
       ⟨Direction.west, Color.red, 7, 0, false, (15, 14)⟩,
       ⟨Direction.west, Color.red, 0, 0, false, (15, 15)⟩,
       ⟨Direction.north, Color.red, 0, 0, false, (13, 9)⟩,
       ⟨Direction.north, Color.red, 1, 60, true, (14, 9)⟩,
       ⟨Direction.north, Color.red, 0, 0, false, (15, 9)⟩,
       ⟨Direction.south, Color.red, 0, 0, false, (9, 15)⟩,
       ⟨Direction.south, Color.red, 0, 0, false, (10, 15)⟩,
       ⟨Direction.south, Color.red, 0, 0, false, (11, 15)⟩],
    ctrl := ⟨Direction.west, 0, 60⟩ }

/-- Checkpoint: the simulation state after 10 ticks under `envC6`. -/
def SC6_10 : ModelState :=
  { lights :=
      [⟨Direction.east, Color.green, 0, 0, false, (9, 9)⟩,
       ⟨Direction.east, Color.green, 0, 0, false, (9, 10)⟩,
       ⟨Direction.east, Color.green, 0, 0, false, (9, 11)⟩,
       ⟨Direction.west, Color.red, 0, 0, false, (15, 13)⟩,
       ⟨Direction.west, Color.red, 0, 0, false, (15, 14)⟩,
       ⟨Direction.west, Color.red, 0, 0, false, (15, 15)⟩,
       ⟨Direction.north, Color.red, 0, 0, false, (13, 9)⟩,
       ⟨Direction.north, Color.red, 1, 10, true, (14, 9)⟩,
       ⟨Direction.north, Color.red, 0, 0, false, (15, 9)⟩,
       ⟨Direction.south, Color.red, 0, 0, false, (9, 15)⟩,
       ⟨Direction.south, Color.red, 1, 10, true, (10, 15)⟩,
       ⟨Direction.south, Color.red, 0, 0, false, (11, 15)⟩],
    ctrl := ⟨Direction.east, 10, 60⟩ }

/-- Checkpoint: the simulation state after 20 ticks under `envC6`. -/
def SC6_20 : ModelState :=
  { lights :=
      [⟨Direction.east, Color.green, 0, 0, false, (9, 9)⟩,
       ⟨Direction.east, Color.green, 0, 0, false, (9, 10)⟩,
       ⟨Direction.east, Color.green, 0, 0, false, (9, 11)⟩,
       ⟨Direction.west, Color.red, 0, 0, false, (15, 13)⟩,
       ⟨Direction.west, Color.red, 0, 0, false, (15, 14)⟩,
       ⟨Direction.west, Color.red, 0, 0, false, (15, 15)⟩,
       ⟨Direction.north, Color.red, 0, 0, false, (13, 9)⟩,
       ⟨Direction.north, Color.red, 1, 20, true, (14, 9)⟩,
       ⟨Direction.north, Color.red, 0, 0, false, (15, 9)⟩,
       ⟨Direction.south, Color.red, 0, 0, false, (9, 15)⟩,
       ⟨Direction.south, Color.red, 1, 20, true, (10, 15)⟩,
       ⟨Direction.south, Color.red, 0, 0, false, (11, 15)⟩],
    ctrl := ⟨Direction.east, 20, 60⟩ }

/-- Checkpoint: the simulation state after 30 ticks under `envC6`. -/
def SC6_30 : ModelState :=
  { lights :=
      [⟨Direction.east, Color.green, 0, 0, false, (9, 9)⟩,
       ⟨Direction.east, Color.green, 0, 0, false, (9, 10)⟩,
       ⟨Direction.east, Color.green, 0, 0, false, (9, 11)⟩,
       ⟨Direction.west, Color.red, 0, 0, false, (15, 13)⟩,
       ⟨Direction.west, Color.red, 0, 0, false, (15, 14)⟩,
       ⟨Direction.west, Color.red, 0, 0, false, (15, 15)⟩,
       ⟨Direction.north, Color.red, 0, 0, false, (13, 9)⟩,
       ⟨Direction.north, Color.red, 1, 30, true, (14, 9)⟩,
       ⟨Direction.north, Color.red, 0, 0, false, (15, 9)⟩,
       ⟨Direction.south, Color.red, 0, 0, false, (9, 15)⟩,
       ⟨Direction.south, Color.red, 1, 30, true, (10, 15)⟩,
       ⟨Direction.south, Color.red, 0, 0, false, (11, 15)⟩],
    ctrl := ⟨Direction.east, 30, 60⟩ }

/-- Checkpoint: the simulation state after 40 ticks under `envC6`. -/
def SC6_40 : ModelState :=
  { lights :=
      [⟨Direction.east, Color.green, 0, 0, false, (9, 9)⟩,
       ⟨Direction.east, Color.green, 0, 0, false, (9, 10)⟩,
       ⟨Direction.east, Color.green, 0, 0, false, (9, 11)⟩,
       ⟨Direction.west, Color.red, 0, 0, false, (15, 13)⟩,
       ⟨Direction.west, Color.red, 0, 0, false, (15, 14)⟩,
       ⟨Direction.west, Color.red, 0, 0, false, (15, 15)⟩,
       ⟨Direction.north, Color.red, 0, 0, false, (13, 9)⟩,
       ⟨Direction.north, Color.red, 1, 40, true, (14, 9)⟩,
       ⟨Direction.north, Color.red, 0, 0, false, (15, 9)⟩,
       ⟨Direction.south, Color.red, 0, 0, false, (9, 15)⟩,
       ⟨Direction.south, Color.red, 1, 40, true, (10, 15)⟩,
       ⟨Direction.south, Color.red, 0, 0, false, (11, 15)⟩],
    ctrl := ⟨Direction.east, 40, 60⟩ }

/-- Checkpoint: the simulation state after 50 ticks under `envC6`. -/
def SC6_50 : ModelState :=
  { lights :=
      [⟨Direction.east, Color.green, 0, 0, false, (9, 9)⟩,
       ⟨Direction.east, Color.green, 0, 0, false, (9, 10)⟩,
       ⟨Direction.east, Color.green, 0, 0, false, (9, 11)⟩,
       ⟨Direction.west, Color.red, 0, 0, false, (15, 13)⟩,
       ⟨Direction.west, Color.red, 0, 0, false, (15, 14)⟩,
       ⟨Direction.west, Color.red, 0, 0, false, (15, 15)⟩,
       ⟨Direction.north, Color.red, 0, 0, false, (13, 9)⟩,
       ⟨Direction.north, Color.red, 1, 50, true, (14, 9)⟩,
       ⟨Direction.north, Color.red, 0, 0, false, (15, 9)⟩,
       ⟨Direction.south, Color.red, 0, 0, false, (9, 15)⟩,
       ⟨Direction.south, Color.red, 1, 50, true, (10, 15)⟩,
       ⟨Direction.south, Color.red, 0, 0, false, (11, 15)⟩],
    ctrl := ⟨Direction.east, 50, 60⟩ }

/-- Checkpoint: the simulation state after 60 ticks under `envC6`. -/
def SC6_60 : ModelState :=
  { lights :=
      [⟨Direction.east, Color.green, 0, 0, false, (9, 9)⟩,
       ⟨Direction.east, Color.green, 0, 0, false, (9, 10)⟩,
       ⟨Direction.east, Color.green, 0, 0, false, (9, 11)⟩,
       ⟨Direction.west, Color.red, 0, 0, false, (15, 13)⟩,
       ⟨Direction.west, Color.red, 0, 0, false, (15, 14)⟩,
       ⟨Direction.west, Color.red, 0, 0, false, (15, 15)⟩,
       ⟨Direction.north, Color.red, 0, 0, false, (13, 9)⟩,
       ⟨Direction.north, Color.red, 1, 60, true, (14, 9)⟩,
       ⟨Direction.north, Color.red, 0, 0, false, (15, 9)⟩,
       ⟨Direction.south, Color.red, 0, 0, false, (9, 15)⟩,
       ⟨Direction.south, Color.red, 1, 60, true, (10, 15)⟩,
       ⟨Direction.south, Color.red, 0, 0, false, (11, 15)⟩],
    ctrl := ⟨Direction.east, 60, 60⟩ }

/-- Checkpoint: the simulation state after 69 ticks under `envC6`. -/
def SC6_69 : ModelState :=
  { lights :=
      [⟨Direction.east, Color.red, 0, 0, false, (9, 9)⟩,
       ⟨Direction.east, Color.red, 0, 0, false, (9, 10)⟩,
       ⟨Direction.east, Color.red, 0, 0, false, (9, 11)⟩,
       ⟨Direction.west, Color.red, 0, 0, false, (15, 13)⟩,
       ⟨Direction.west, Color.red, 0, 0, false, (15, 14)⟩,
       ⟨Direction.west, Color.red, 0, 0, false, (15, 15)⟩,
       ⟨Direction.north, Color.red, 0, 0, false, (13, 9)⟩,
       ⟨Direction.north, Color.red, 1, 69, true, (14, 9)⟩,
       ⟨Direction.north, Color.red, 0, 0, false, (15, 9)⟩,
       ⟨Direction.south, Color.red, 0, 0, false, (9, 15)⟩,
       ⟨Direction.south, Color.red, 0, 60, false, (10, 15)⟩,
       ⟨Direction.south, Color.red, 0, 0, false, (11, 15)⟩],
    ctrl := ⟨Direction.north, 8, 76⟩ }

/-- Splitting a run: running `a + b` ticks is running `a` ticks and then
`b` more with the occupancy history shifted by `a`. -/
theorem runFrom_add (env : Nat → Int → Int → Bool) (s0 : ModelState) (a b : Nat) :
    runFrom env s0 (a + b) = runFrom (fun k => env (a + k)) (runFrom env s0 a) b := by
  induction b with
  | zero => rfl
  | succ b ih =>
    show modelStep (env (a + b)) (runFrom env s0 (a + b)) = _
    rw [ih]
    rfl

set_option maxRecDepth 4000 in
/-- Checkpoint lemma: `runFrom envC2` reaches `SC2_10` at tick 10. -/
theorem envC2_10 : runFrom envC2 initState 10 = SC2_10 := by decide

set_option maxRecDepth 4000 in
/-- Checkpoint lemma: `runFrom envC2` reaches `SC2_20` at tick 20. -/
theorem envC2_20 : runFrom envC2 initState 20 = SC2_20 := by
  rw [show (20 : Nat) = 10 + 10 from rfl, runFrom_add, envC2_10]
  decide

set_option maxRecDepth 4000 in
/-- Checkpoint lemma: `runFrom envC2` reaches `SC2_30` at tick 30. -/
theorem envC2_30 : runFrom envC2 initState 30 = SC2_30 := by
  rw [show (30 : Nat) = 20 + 10 from rfl, runFrom_add, envC2_20]
  decide

set_option maxRecDepth 4000 in
/-- Checkpoint lemma: `runFrom envC2` reaches `SC2_40` at tick 40. -/
theorem envC2_40 : runFrom envC2 initState 40 = SC2_40 := by
  rw [show (40 : Nat) = 30 + 10 from rfl, runFrom_add, envC2_30]
  decide

set_option maxRecDepth 4000 in
/-- Checkpoint lemma: `runFrom envC2` reaches `SC2_50` at tick 50. -/
theorem envC2_50 : runFrom envC2 initState 50 = SC2_50 := by
  rw [show (50 : Nat) = 40 + 10 from rfl, runFrom_add, envC2_40]
  decide

set_option maxRecDepth 4000 in
/-- Checkpoint lemma: `runFrom envC2` reaches `SC2_60` at tick 60. -/
theorem envC2_60 : runFrom envC2 initState 60 = SC2_60 := by
  rw [show (60 : Nat) = 50 + 10 from rfl, runFrom_add, envC2_50]
  decide

set_option maxRecDepth 4000 in
/-- Checkpoint lemma: `runFrom envC2` reaches `SC2_70` at tick 70. -/
theorem envC2_70 : runFrom envC2 initState 70 = SC2_70 := by
  rw [show (70 : Nat) = 60 + 10 from rfl, runFrom_add, envC2_60]
  decide

set_option maxRecDepth 4000 in
/-- Checkpoint lemma: `runFrom envC5` reaches `SC5_10` at tick 10. -/
theorem envC5_10 : runFrom envC5 initState 10 = SC5_10 := by decide

set_option maxRecDepth 4000 in
/-- Checkpoint lemma: `runFrom envC5` reaches `SC5_20` at tick 20. -/
theorem envC5_20 : runFrom envC5 initState 20 = SC5_20 := by
  rw [show (20 : Nat) = 10 + 10 from rfl, runFrom_add, envC5_10]
  decide

set_option maxRecDepth 4000 in
/-- Checkpoint lemma: `runFrom envC5` reaches `SC5_30` at tick 30. -/
theorem envC5_30 : runFrom envC5 initState 30 = SC5_30 := by
  rw [show (30 : Nat) = 20 + 10 from rfl, runFrom_add, envC5_20]
  decide

set_option maxRecDepth 4000 in
/-- Checkpoint lemma: `runFrom envC5` reaches `SC5_40` at tick 40. -/
theorem envC5_40 : runFrom envC5 initState 40 = SC5_40 := by
  rw [show (40 : Nat) = 30 + 10 from rfl, runFrom_add, envC5_30]
  decide

set_option maxRecDepth 4000 in
/-- Checkpoint lemma: `runFrom envC5` reaches `SC5_50` at tick 50. -/
theorem envC5_50 : runFrom envC5 initState 50 = SC5_50 := by
  rw [show (50 : Nat) = 40 + 10 from rfl, runFrom_add, envC5_40]
  decide

set_option maxRecDepth 4000 in
/-- Checkpoint lemma: `runFrom envC5` reaches `SC5_60` at tick 60. -/
theorem envC5_60 : runFrom envC5 initState 60 = SC5_60 := by
  rw [show (60 : Nat) = 50 + 10 from rfl, runFrom_add, envC5_50]
  decide

set_option maxRecDepth 4000 in
/-- Checkpoint lemma: `runFrom envC6` reaches `SC6_10` at tick 10. -/
theorem envC6_10 : runFrom envC6 initState 10 = SC6_10 := by decide

set_option maxRecDepth 4000 in
/-- Checkpoint lemma: `runFrom envC6` reaches `SC6_20` at tick 20. -/
theorem envC6_20 : runFrom envC6 initState 20 = SC6_20 := by
  rw [show (20 : Nat) = 10 + 10 from rfl, runFrom_add, envC6_10]
  decide

set_option maxRecDepth 4000 in
/-- Checkpoint lemma: `runFrom envC6` reaches `SC6_30` at tick 30. -/
theorem envC6_30 : runFrom envC6 initState 30 = SC6_30 := by
  rw [show (30 : Nat) = 20 + 10 from rfl, runFrom_add, envC6_20]
  decide

set_option maxRecDepth 4000 in
/-- Checkpoint lemma: `runFrom envC6` reaches `SC6_40` at tick 40. -/
theorem envC6_40 : runFrom envC6 initState 40 = SC6_40 := by
  rw [show (40 : Nat) = 30 + 10 from rfl, runFrom_add, envC6_30]
  decide

set_option maxRecDepth 4000 in
/-- Checkpoint lemma: `runFrom envC6` reaches `SC6_50` at tick 50. -/
theorem envC6_50 : runFrom envC6 initState 50 = SC6_50 := by
  rw [show (50 : Nat) = 40 + 10 from rfl, runFrom_add, envC6_40]
  decide

set_option maxRecDepth 4000 in
/-- Checkpoint lemma: `runFrom envC6` reaches `SC6_60` at tick 60. -/
theorem envC6_60 : runFrom envC6 initState 60 = SC6_60 := by
  rw [show (60 : Nat) = 50 + 10 from rfl, runFrom_add, envC6_50]
  decide

set_option maxRecDepth 4000 in
/-- Checkpoint lemma: `runFrom envC6` reaches `SC6_69` at tick 69. -/
theorem envC6_69 : runFrom envC6 initState 69 = SC6_69 := by
  rw [show (69 : Nat) = 60 + 9 from rfl, runFrom_add, envC6_60]
  decide

@[simp] theorem update_variables_direction (l : Light) (i : Nat) :
    (update_variables l i).direction = l.direction := rfl

@[simp] theorem update_variables_pos (l : Light) (i : Nat) :
    (update_variables l i).pos = l.pos := rfl

@[simp] theorem update_variables_color (l : Light) (i : Nat) :
    (update_variables l i).color = l.color := rfl

@[simp] theorem update_variables_demand (l : Light) (i : Nat) :
    (update_variables l i).demand = l.demand + 1 := rfl

@[simp] theorem update_variables_car (l : Light) (i : Nat) :
    (update_variables l i).car_waiting = (if i = 0 then true else l.car_waiting) := rfl

@[simp] theorem update_variables_wait (l : Light) (i : Nat) :
    (update_variables l i).waiting_time
      = (if i = 0 then l.waiting_time + 1 else l.waiting_time) := rfl

theorem senseStep_eq_true (occ : Int → Int → Bool) (acc : Light) (i : Nat)
    (h : occAt occ acc i = true) : senseStep occ acc i = update_variables acc i := by
  unfold senseStep
  rw [h]
  rfl

theorem senseStep_eq_false (occ : Int → Int → Bool) (acc : Light) (i : Nat)
    (h : occAt occ acc i = false) : senseStep occ acc i = acc := by
  unfold senseStep
  rw [h]
  rfl

theorem occAt_congr (occ : Int → Int → Bool) (a b : Light) (i : Nat)
    (h1 : a.direction = b.direction) (h2 : a.pos = b.pos) :
    occAt occ a i = occAt occ b i := by
  unfold occAt
  rw [h1, h2]

/-- Loop invariant of the sensing loop of `calculate_demand`: folding
`senseStep` over offsets `0..n-1` adds the number of occupied offsets to
`demand`, sets `car_waiting` when offset 0 is occupied and was scanned,
and increments `waiting_time` accordingly. -/
theorem sense_fold (occ : Int → Int → Bool) (l : Light) :
    ∀ (n : Nat) (acc : Light), acc.direction = l.direction → acc.pos = l.pos →
      ((List.range n).foldl (senseStep occ) acc).direction = l.direction
      ∧ ((List.range n).foldl (senseStep occ) acc).pos = l.pos
      ∧ ((List.range n).foldl (senseStep occ) acc).color = acc.color
      ∧ ((List.range n).foldl (senseStep occ) acc).demand
          = acc.demand + ((List.range n).filter (fun i => occAt occ l i)).length
      ∧ ((List.range n).foldl (senseStep occ) acc).car_waiting
          = (acc.car_waiting || (decide (0 < n) && occAt occ l 0))
      ∧ ((List.range n).foldl (senseStep occ) acc).waiting_time
          = acc.waiting_time + (if 0 < n ∧ occAt occ l 0 = true then 1 else 0) := by
  intro n
  induction n with
  | zero =>
    intro acc h1 h2
    simp [h1, h2]
  | succ n ih =>
    intro acc h1 h2
    obtain ⟨d1, p1, c1, dm1, cw1, wt1⟩ := ih acc h1 h2
    rw [List.range_succ, List.foldl_append, List.filter_append]
    simp only [List.foldl_cons, List.foldl_nil]
    have hocc : occAt occ ((List.range n).foldl (senseStep occ) acc) n = occAt occ l n :=
      occAt_congr occ _ l n d1 p1
    by_cases h : occAt occ l n = true
    · rw [senseStep_eq_true occ _ n (hocc.trans h)]
      refine ⟨by simp [d1], by simp [p1], by simp [c1], ?_, ?_, ?_⟩
      · simp [dm1, h]
        omega
      · rcases Nat.eq_zero_or_pos n with hn | hn
        · subst hn
          simp only [List.range_zero, List.foldl_nil] at cw1 ⊢
          simp [h]
        · have hn0 : n ≠ 0 := by omega
          simp [hn0, cw1, hn]
      · rcases Nat.eq_zero_or_pos n with hn | hn
        · subst hn
          simp only [List.range_zero, List.foldl_nil] at wt1 ⊢
          simp [h]
        · have hn0 : n ≠ 0 := by omega
          simp [hn0, wt1, hn]
    · have hf : occAt occ l n = false := by simpa using h
      rw [senseStep_eq_false occ _ n (hocc.trans hf)]
      refine ⟨d1, p1, c1, ?_, ?_, ?_⟩
      · simp [dm1, hf]
      · rcases Nat.eq_zero_or_pos n with hn | hn
        · subst hn
          simp [hf]
        · simp [cw1, hn]
      · rcases Nat.eq_zero_or_pos n with hn | hn
        · subst hn
          simp [hf]
        · simp [wt1, hn]

/-- Claim C9: after `calculate_demand`, `demand` is exactly the number of
occupied cells among the 10 offsets of the light's approach window
(recomputed from scratch), `car_waiting` holds exactly when offset 0 is
occupied, `waiting_time` is incremented by 1 exactly in that case, and
the light's identity (direction, position) is unchanged; in particular
with no occupied cell, `demand = 0` and `car_waiting = false`. -/
theorem C9_lane_sensor : ∀ (occ : Int → Int → Bool) (l : Light),
    (calculate_demand occ l).demand
      = ((List.range 10).filter (fun i => occAt occ l i)).length
    ∧ (calculate_demand occ l).car_waiting = occAt occ l 0
    ∧ (calculate_demand occ l).waiting_time
      = (if occAt occ l 0 = true then l.waiting_time + 1 else l.waiting_time)
    ∧ (calculate_demand occ l).direction = l.direction
    ∧ (calculate_demand occ l).pos = l.pos := by
  intro occ l
  obtain ⟨d1, p1, c1, dm1, cw1, wt1⟩ :=
    sense_fold occ l 10 { l with demand := 0, car_waiting := false } rfl rfl
  unfold calculate_demand
  refine ⟨by simpa using dm1, by simpa using cw1, ?_, d1, p1⟩
  rw [wt1]
  by_cases h : occAt occ l 0 = true <;> simp [h]

/-- Claim C8: `timer3` sets the color to green iff the light's direction
equals the controller's `green_lights` and the dwell counter `time`
exceeds 7, and to red otherwise; exactly when it sets green it also
resets `waiting_time` to 0. -/
theorem C8_actuation : ∀ (c : Controller) (l : Light),
    (timer3 c l).color
      = (if l.direction = c.green_lights ∧ c.time > 7 then Color.green else Color.red)
    ∧ (timer3 c l).waiting_time
      = (if l.direction = c.green_lights ∧ c.time > 7 then 0 else l.waiting_time) := by
  intro c l
  unfold timer3
  split <;> simp_all

/-- Claim C10: `highest_demand` (the embedding of
`max(demands, key=demands.get)`) deterministically returns the first
maximal direction in the construction order east, west, north, south:
its demand is maximal, any direction of equal demand comes no earlier in
the order, and equal light states give equal choices. -/
theorem C10_tie_break :
    (∀ f : Direction → Nat, ∀ d : Direction, f d ≤ f (highest_demand f))
    ∧ (∀ f : Direction → Nat, ∀ d : Direction,
        f (highest_demand f) ≤ f d → dirIndex (highest_demand f) ≤ dirIndex d)
    ∧ (∀ L1 L2 : List Light, L1 = L2 →
        highest_demand (combine_demands L1) = highest_demand (combine_demands L2)) := by
  refine ⟨?_, ?_, ?_⟩
  · intro f d
    unfold highest_demand
    simp only [List.foldl_cons, List.foldl_nil]
    split_ifs <;> cases d <;> omega
  · intro f d
    unfold highest_demand
    simp only [List.foldl_cons, List.foldl_nil]
    split_ifs <;> cases d <;> simp [dirIndex] <;> omega
  · intro L1 L2 h
    rw [h]

theorem timer3_color (c : Controller) (l : Light) :
    (timer3 c l).color
      = (if l.direction = c.green_lights ∧ c.time > 7 then Color.green else Color.red) := by
  by_cases h : l.direction = c.green_lights ∧ c.time > 7 <;> simp [timer3, h]

theorem timer3_wait (c : Controller) (l : Light) :
    (timer3 c l).waiting_time
      = (if l.direction = c.green_lights ∧ c.time > 7 then 0 else l.waiting_time) := by
  by_cases h : l.direction = c.green_lights ∧ c.time > 7 <;> simp [timer3, h]

theorem timer3_dir (c : Controller) (l : Light) :
    (timer3 c l).direction = l.direction := by
  by_cases h : l.direction = c.green_lights ∧ c.time > 7 <;> simp [timer3, h]

theorem check_delay_green (lights : List Light) (c : Controller) :
    (check_delay_limit lights c).green_lights = c.green_lights := by
  unfold check_delay_limit
  split_ifs <;> rfl

theorem check_delay_time (lights : List Light) (c : Controller) :
    (check_delay_limit lights c).time = c.time := by
  unfold check_delay_limit
  split_ifs <;> rfl

/-- `check_delay_limit` as a single equation: decay happens exactly when
the limit is above 60 and no light is strictly above `delay_limit - 16`
(that is, every light is at or below it). -/
theorem check_delay_eq (lights : List Light) (c : Controller) :
    check_delay_limit lights c =
      (if c.delay_limit > 60 ∧ ∀ l ∈ lights, (l.waiting_time : Int) ≤ c.delay_limit - 16
        then { c with delay_limit := c.delay_limit - 16 } else c) := by
  unfold check_delay_limit
  by_cases h1 : c.delay_limit > 60
  · by_cases h2 : lights.any (fun l => decide ((l.waiting_time : Int) > c.delay_limit - 16)) = true
    · rw [if_pos h1, if_pos h2, if_neg ?_]
      rintro ⟨h3, h4⟩
      rcases List.any_eq_true.mp h2 with ⟨l, hl, hp⟩
      have h5 := h4 l hl
      simp only [decide_eq_true_eq] at hp
      omega
    · rw [if_pos h1, if_neg h2, if_pos ?_]
      refine ⟨h1, fun l hl => ?_⟩
      by_contra hcon
      exact h2 (List.any_eq_true.mpr ⟨l, hl, by simp only [decide_eq_true_eq]; omega⟩)
  · rw [if_neg h1, if_neg (fun hcon => h1 hcon.1)]

theorem hysteresis_delay (lights : List Light) (c : Controller) :
    (hysteresis_step lights c).delay_limit = c.delay_limit := by
  unfold hysteresis_step
  split_ifs <;> rfl

/-- `Controller.car_waiting` returns `False` exactly when some light of
the authorized direction reports no car waiting. -/
theorem car_waiting_false_iff (lights : List Light) (g : Direction) :
    car_waiting lights g = false
      ↔ ∃ l ∈ lights, l.direction = g ∧ l.car_waiting = false := by
  unfold car_waiting
  simp [List.any_eq_true]

/-- `hysteresis_step` as a single equation over the drained-queue test. -/
theorem hysteresis_eq (lights : List Light) (c : Controller) :
    hysteresis_step lights c =
      (if (combine_demands lights c.green_lights : Int)
            < (combine_demands lights (highest_demand (combine_demands lights)) : Int) - 6
          ∧ (∃ l ∈ lights, l.direction = c.green_lights ∧ l.car_waiting = false)
        then { c with green_lights := highest_demand (combine_demands lights), time := 0 }
        else c) := by
  unfold hysteresis_step
  by_cases hm : (combine_demands lights c.green_lights : Int)
      < (combine_demands lights (highest_demand (combine_demands lights)) : Int) - 6
  · rw [if_pos hm]
    by_cases hw : car_waiting lights c.green_lights = false
    · rw [if_pos hw, if_pos ⟨hm, (car_waiting_false_iff lights c.green_lights).mp hw⟩]
    · rw [if_neg hw, if_neg ?_]
      rintro ⟨h3, h4⟩
      exact hw ((car_waiting_false_iff lights c.green_lights).mpr h4)
  · rw [if_neg hm, if_neg (fun hcon => hm hcon.1)]

theorem cwl_none (lights : List Light) (c : Controller)
    (h : List.find? (starves c.delay_limit) lights = none) :
    car_waiting_long lights c = (c, false) := by
  unfold car_waiting_long
  rw [h]

theorem cwl_some (lights : List Light) (c : Controller) (l0 : Light)
    (h : List.find? (starves c.delay_limit) lights = some l0) :
    car_waiting_long lights c =
      ({ c with
          green_lights := l0.direction
          time := if c.time > 8 then 0 else c.time
          delay_limit := if c.time > 8 then c.delay_limit + 16 else c.delay_limit }, true) := by
  unfold car_waiting_long
  rw [h]

theorem cwl_snd_false (lights : List Light) (c : Controller)
    (h : (car_waiting_long lights c).2 = false) :
    List.find? (starves c.delay_limit) lights = none := by
  cases hf : List.find? (starves c.delay_limit) lights with
  | none => rfl
  | some l0 => rw [cwl_some lights c l0 hf] at h; simp at h

/-- A light already beyond the threshold keeps the decay from firing. -/
theorem no_decay_of_starver (lights : List Light) (c : Controller) (l0 : Light)
    (h : List.find? (starves c.delay_limit) lights = some l0) :
    check_delay_limit lights c = c := by
  have hmem : l0 ∈ lights := List.mem_of_find?_eq_some h
  have hw : (l0.waiting_time : Int) > c.delay_limit := by
    have h1 := List.find?_some h
    simpa [starves] using h1
  rw [check_delay_eq, if_neg ?_]
  rintro ⟨h2, h3⟩
  have h4 := h3 l0 hmem
  omega

/-- If no light is beyond the threshold, none is beyond it after the
decay step either (the decay requires every light to be 16 below). -/
theorem no_starver_after_decay (lights : List Light) (c : Controller)
    (h : List.find? (starves c.delay_limit) lights = none) :
    List.find? (starves (check_delay_limit lights c).delay_limit) lights = none := by
  rw [check_delay_eq]
  split_ifs with hc
  · rw [List.find?_eq_none]
    intro l hl
    have h1 := hc.2 l hl
    simp only [starves, decide_eq_true_eq]
    simp only [not_lt]
    omega
  · exact h

/-- Full characterization of `determine_light` when the starvation
override fires: the first light beyond the threshold seizes the green;
the dwell counter resets and the threshold rises by 16 exactly when the
incremented counter exceeds 8. -/
theorem override_result (lights : List Light) (c : Controller) (l0 : Light)
    (h : List.find? (starves c.delay_limit) lights = some l0) :
    determine_light lights c =
      { green_lights := l0.direction
        time := if c.time + 1 > 8 then 0 else c.time + 1
        delay_limit := if c.time + 1 > 8 then c.delay_limit + 16 else c.delay_limit } := by
  have hcd : check_delay_limit lights { c with time := c.time + 1 }
      = { c with time := c.time + 1 } := no_decay_of_starver lights _ l0 h
  unfold determine_light
  dsimp only
  rw [hcd, cwl_some lights { c with time := c.time + 1 } l0 h]
  simp

/-- Full characterization of `determine_light` when the starvation
override does not fire: the decayed controller state goes through the
hysteresis test, whose queue condition is `some` light of the authorized
direction reporting `car_waiting = false`. -/
theorem hysteresis_result (lights : List Light) (c : Controller)
    (h : (car_waiting_long lights (check_delay_limit lights { c with time := c.time + 1 })).2
          = false) :
    determine_light lights c =
      (if (combine_demands lights c.green_lights : Int)
            < (combine_demands lights (highest_demand (combine_demands lights)) : Int) - 6
          ∧ (∃ l ∈ lights, l.direction = c.green_lights ∧ l.car_waiting = false)
        then { check_delay_limit lights { c with time := c.time + 1 } with
                green_lights := highest_demand (combine_demands lights), time := 0 }
        else check_delay_limit lights { c with time := c.time + 1 }) := by
  have hfind := cwl_snd_false lights _ h
  unfold determine_light
  dsimp only
  rw [cwl_none lights (check_delay_limit lights { c with time := c.time + 1 }) hfind]
  have hg : (check_delay_limit lights { c with time := c.time + 1 }).green_lights
      = c.green_lights := check_delay_green lights _
  dsimp only
  rw [if_pos rfl, hysteresis_eq, hg]

/-- Every light set green by the lights' pass has the direction that the
controller authorized when the pass ran. -/
theorem green_aligned (occ : Int → Int → Bool) (s : ModelState) :
    ∀ l ∈ (lightsStep occ s).lights, l.color = Color.green →
      l.direction = s.ctrl.green_lights := by
  intro l hl hc
  simp only [lightsStep, List.mem_map] at hl
  obtain ⟨l0, hm, rfl⟩ := hl
  rw [timer3_color] at hc
  by_cases hcase : (calculate_demand occ l0).direction = s.ctrl.green_lights ∧ s.ctrl.time > 7
  · rw [timer3_dir]
    exact hcase.1
  · rw [if_neg hcase] at hc
    simp at hc

/-- Claim C1: in every reachable simulation state at most one direction
has green lights — any two green lights share a direction — because
every light set green by the actuation pass has its direction equal to
the `green_lights` the controller had published when the pass ran. -/
theorem C1_mutual_exclusion :
    (∀ s : ModelState, Reachable s → ∀ l1 ∈ s.lights, ∀ l2 ∈ s.lights,
        l1.color = Color.green → l2.color = Color.green →
        l1.direction = l2.direction)
    ∧ (∀ (occ : Int → Int → Bool) (s : ModelState),
        ∀ l ∈ (lightsStep occ s).lights, l.color = Color.green →
          l.direction = s.ctrl.green_lights) := by
  constructor
  · intro s hs l1 h1 l2 h2 hc1 hc2
    obtain ⟨env, n, rfl⟩ := hs
    cases n with
    | zero =>
      have hred : ∀ l ∈ initLights, l.color = Color.red := by decide
      have h3 := hred l1 h1
      rw [h3] at hc1
      exact absurd hc1 (by decide)
    | succ n =>
      have e1 := green_aligned (env n) (runFrom env initState n) l1 h1 hc1
      have e2 := green_aligned (env n) (runFrom env initState n) l2 h2 hc2
      rw [e1, e2]
  · exact green_aligned

/-- Witness for C1 at a concrete reachable state. -/
theorem C1_mutual_exclusion_witness :
    ∀ l1 ∈ (runFrom envC2 initState 20).lights, ∀ l2 ∈ (runFrom envC2 initState 20).lights,
      l1.color = Color.green → l2.color = Color.green → l1.direction = l2.direction :=
  C1_mutual_exclusion.1 (runFrom envC2 initState 20) ⟨envC2, 20, rfl⟩

theorem delay_form_check (lights : List Light) (c : Controller) (k : Nat)
    (h : c.delay_limit = 60 + 16 * (k : Int)) :
    ∃ m : Nat, (check_delay_limit lights c).delay_limit = 60 + 16 * (m : Int) := by
  rw [check_delay_eq]
  split_ifs with hc
  · rcases k with _ | k2
    · exfalso
      have h1 := hc.1
      rw [h] at h1
      norm_num at h1
    · refine ⟨k2, ?_⟩
      dsimp only
      rw [h]
      push_cast
      ring
  · exact ⟨k, h⟩

theorem delay_form_det (lights : List Light) (c : Controller) (k : Nat)
    (h : c.delay_limit = 60 + 16 * (k : Int)) :
    ∃ m : Nat, (determine_light lights c).delay_limit = 60 + 16 * (m : Int) := by
  obtain ⟨m2, hm2⟩ := delay_form_check lights { c with time := c.time + 1 } k h
  unfold determine_light
  dsimp only
  cases hf : List.find?
      (starves (check_delay_limit lights { c with time := c.time + 1 }).delay_limit) lights with
  | none =>
    rw [cwl_none lights (check_delay_limit lights { c with time := c.time + 1 }) hf]
    dsimp only
    rw [if_pos rfl, hysteresis_delay]
    exact ⟨m2, hm2⟩
  | some l1 =>
    rw [cwl_some lights (check_delay_limit lights { c with time := c.time + 1 }) l1 hf]
    dsimp only
    rw [if_neg (by simp)]
    dsimp only
    split_ifs with ht
    · exact ⟨m2 + 1, by rw [hm2]; push_cast; ring⟩
    · exact ⟨m2, hm2⟩

theorem delay_form_reach (env : Nat → Int → Int → Bool) :
    ∀ n : Nat, ∃ k : Nat,
      (runFrom env initState n).ctrl.delay_limit = 60 + 16 * (k : Int) := by
  intro n
  induction n with
  | zero =>
    refine ⟨0, ?_⟩
    show (60 : Int) = 60 + 16 * ((0 : Nat) : Int)
    norm_num
  | succ n ih =>
    obtain ⟨k, hk⟩ := ih
    exact delay_form_det (lightsStep (env n) (runFrom env initState n)).lights
      (runFrom env initState n).ctrl k hk

/-- Claim C2 (amended): in every reachable state the starvation
threshold `delay_limit` is of the form `60 + 16 k` — it starts at 60,
moves only in steps of 16 and never drops below 60 — but it is not
bounded above by 76. -/
theorem C2_threshold_form : ∀ s : ModelState, Reachable s →
    ((60 : Int) ≤ s.ctrl.delay_limit
      ∧ ∃ k : Nat, s.ctrl.delay_limit = 60 + 16 * (k : Int)) := by
  intro s hs
  obtain ⟨env, n, rfl⟩ := hs
  obtain ⟨k, hk⟩ := delay_form_reach env n
  refine ⟨?_, k, hk⟩
  rw [hk]
  omega

/-- Witness for C2 at the initial state. -/
theorem C2_threshold_form_witness :
    (60 : Int) ≤ initState.ctrl.delay_limit
      ∧ ∃ k : Nat, initState.ctrl.delay_limit = 60 + 16 * (k : Int) :=
  C2_threshold_form initState ⟨envNone, 0, rfl⟩

set_option maxRecDepth 4000 in
/-- Counterexample to claim C2 as stated: after 77 ticks of `envC2` the
threshold has reached 92, outside [60, 76]. -/
theorem C2_cex :
    Reachable (runFrom envC2 initState 77)
    ∧ (runFrom envC2 initState 77).ctrl.delay_limit = 92
    ∧ ¬((runFrom envC2 initState 77).ctrl.delay_limit ≤ 76) := by
  have h77 : (runFrom envC2 initState 77).ctrl.delay_limit = 92 := by
    rw [show (77 : Nat) = 70 + 7 from rfl, runFrom_add, envC2_70]
    decide
  refine ⟨⟨envC2, 77, rfl⟩, h77, ?_⟩
  rw [h77]
  decide

/-- Claim C3 (amended): in a tick where the starvation override did not
fire, `determine_light` switches to the highest-demand direction and
resets the dwell counter iff the margin-of-6 test holds AND at least one
light of the authorized direction reports `car_waiting = false` (not:
all of them); otherwise the authorized direction is held. -/
theorem C3_hysteresis_rule : ∀ (lights : List Light) (c : Controller),
    (car_waiting_long lights (check_delay_limit lights { c with time := c.time + 1 })).2
        = false →
    determine_light lights c =
      (if (combine_demands lights c.green_lights : Int)
            < (combine_demands lights (highest_demand (combine_demands lights)) : Int) - 6
          ∧ (∃ l ∈ lights, l.direction = c.green_lights ∧ l.car_waiting = false)
        then { check_delay_limit lights { c with time := c.time + 1 } with
                green_lights := highest_demand (combine_demands lights), time := 0 }
        else check_delay_limit lights { c with time := c.time + 1 }) :=
  fun lights c h => hysteresis_result lights c h

/-- Witness for C3 at the initial lights and controller. -/
theorem C3_hysteresis_rule_witness :
    (car_waiting_long initLights (check_delay_limit initLights
        { initState.ctrl with time := initState.ctrl.time + 1 })).2 = false
    ∧ determine_light initLights initState.ctrl =
      (if (combine_demands initLights initState.ctrl.green_lights : Int)
            < (combine_demands initLights
                (highest_demand (combine_demands initLights)) : Int) - 6
          ∧ (∃ l ∈ initLights,
              l.direction = initState.ctrl.green_lights ∧ l.car_waiting = false)
        then { check_delay_limit initLights
                  { initState.ctrl with time := initState.ctrl.time + 1 } with
                green_lights := highest_demand (combine_demands initLights), time := 0 }
        else check_delay_limit initLights
              { initState.ctrl with time := initState.ctrl.time + 1 }) :=
  ⟨by decide, C3_hysteresis_rule initLights initState.ctrl (by decide)⟩

/-- Counterexample to claim C3 as stated: at the first tick under
`envC3` the demand margin holds, the east light at (9, 10) still reports
`car_waiting = true` (so NOT every east light is drained), yet the
controller switches east→north and resets the dwell counter. -/
theorem C3_cex :
    Reachable (runFrom envC3 initState 1)
    ∧ initState.ctrl.green_lights = Direction.east
    ∧ (nthLight (runFrom envC3 initState 1) 1).direction = Direction.east
    ∧ (nthLight (runFrom envC3 initState 1) 1).car_waiting = true
    ∧ (runFrom envC3 initState 1).ctrl.green_lights = Direction.north
    ∧ (runFrom envC3 initState 1).ctrl.time = 0 := by
  refine ⟨⟨envC3, 1, rfl⟩, rfl, ?_⟩
  decide

/-- Claim C4: when some light's `waiting_time` exceeds `delay_limit`,
`determine_light` immediately authorizes the (first) such light's
direction, bypassing the hysteresis test; and when the incremented dwell
counter exceeds 8 it resets the counter and raises the threshold by 16,
otherwise it leaves both alone. -/
theorem C4_override : ∀ (lights : List Light) (c : Controller) (l0 : Light),
    List.find? (starves c.delay_limit) lights = some l0 →
    ((l0.waiting_time : Int) > c.delay_limit
      ∧ (determine_light lights c).green_lights = l0.direction
      ∧ (determine_light lights c).time = (if c.time + 1 > 8 then 0 else c.time + 1)
      ∧ (determine_light lights c).delay_limit
          = (if c.time + 1 > 8 then c.delay_limit + 16 else c.delay_limit)) := by
  intro lights c l0 h
  have hw : (l0.waiting_time : Int) > c.delay_limit := by
    have h1 := List.find?_some h
    simpa [starves] using h1
  rw [override_result lights c l0 h]
  exact ⟨hw, rfl, rfl, rfl⟩

/-- Witness for C4 on a one-light list with `waiting_time = 61`. -/
theorem C4_override_witness :
    List.find? (starves initState.ctrl.delay_limit) [starvedLight] = some starvedLight
    ∧ ((starvedLight.waiting_time : Int) > initState.ctrl.delay_limit
      ∧ (determine_light [starvedLight] initState.ctrl).green_lights
          = starvedLight.direction
      ∧ (determine_light [starvedLight] initState.ctrl).time
          = (if initState.ctrl.time + 1 > 8 then 0 else initState.ctrl.time + 1)
      ∧ (determine_light [starvedLight] initState.ctrl).delay_limit
          = (if initState.ctrl.time + 1 > 8 then initState.ctrl.delay_limit + 16
              else initState.ctrl.delay_limit)) :=
  ⟨by decide, C4_override [starvedLight] initState.ctrl starvedLight (by decide)⟩

theorem calc_wait (occ : Int → Int → Bool) (l : Light) :
    (calculate_demand occ l).waiting_time
      = (if occAt occ l 0 = true then l.waiting_time + 1 else l.waiting_time) := by
  obtain ⟨d1, p1, c1, dm1, cw1, wt1⟩ :=
    sense_fold occ l 10 { l with demand := 0, car_waiting := false } rfl rfl
  unfold calculate_demand
  rw [wt1]
  by_cases h : occAt occ l 0 = true <;> simp [h]

/-- In one controller step the threshold stays, decays by 16, or is
escalated by 16; nothing else can happen to it. -/
theorem delay_step_cases (lights : List Light) (c : Controller) :
    (determine_light lights c).delay_limit = c.delay_limit
    ∨ (determine_light lights c).delay_limit = c.delay_limit - 16
    ∨ (determine_light lights c).delay_limit = c.delay_limit + 16 := by
  unfold determine_light
  dsimp only
  have hc2 : (check_delay_limit lights { c with time := c.time + 1 }).delay_limit
        = c.delay_limit
      ∨ (check_delay_limit lights { c with time := c.time + 1 }).delay_limit
        = c.delay_limit - 16 := by
    rw [check_delay_eq]
    split_ifs
    · right; rfl
    · left; rfl
  cases hf : List.find?
      (starves (check_delay_limit lights { c with time := c.time + 1 }).delay_limit)
      lights with
  | none =>
    rw [cwl_none lights (check_delay_limit lights { c with time := c.time + 1 }) hf]
    dsimp only
    rw [if_pos rfl, hysteresis_delay]
    rcases hc2 with h | h
    · exact Or.inl h
    · exact Or.inr (Or.inl h)
  | some l1 =>
    rw [cwl_some lights (check_delay_limit lights { c with time := c.time + 1 }) l1 hf]
    dsimp only
    rw [if_neg (by simp)]
    dsimp only
    split_ifs with ht
    · rcases hc2 with h | h
      · right; right; rw [h]
      · left; rw [h]; ring
    · rcases hc2 with h | h
      · exact Or.inl h
      · exact Or.inr (Or.inl h)

/-- Claim C5 (amended): a light's `waiting_time` can stay above the
threshold for several consecutive ticks; while it does, the override
authorizes the first starving light's direction every tick; actuation
with the direction authorized and `time > 7` turns the light green and
resets `waiting_time`; and an exceedance ends in exactly one of two
ways — the light is actuated green that tick (`waiting_time` reset to
0), or a starvation escalation raises the threshold by 16 past the
light's `waiting_time`. -/
theorem C5_starvation_pursuit :
    (∀ (lights : List Light) (c : Controller) (l0 : Light),
        List.find? (starves c.delay_limit) lights = some l0 →
        (determine_light lights c).green_lights = l0.direction)
    ∧ (∀ (c : Controller) (l : Light),
        l.direction = c.green_lights → c.time > 7 →
        (timer3 c l).color = Color.green ∧ (timer3 c l).waiting_time = 0)
    ∧ (∀ (occ : Int → Int → Bool) (s : ModelState) (i : Nat),
        ((nthLight s i).waiting_time : Int) > s.ctrl.delay_limit →
        ¬(((nthLight (modelStep occ s) i).waiting_time : Int)
            > (modelStep occ s).ctrl.delay_limit) →
        i < s.lights.length →
        ((nthLight (modelStep occ s) i).waiting_time = 0
          ∧ (nthLight (modelStep occ s) i).color = Color.green)
        ∨ (modelStep occ s).ctrl.delay_limit = s.ctrl.delay_limit + 16) := by
  refine ⟨?_, ?_, ?_⟩
  · intro lights c l0 h
    rw [override_result lights c l0 h]
  · intro c l h1 h2
    unfold timer3
    rw [if_pos ⟨h1, h2⟩]
    exact ⟨rfl, rfl⟩
  · intro occ s i hex hnex hlen
    have hsome : s.lights[i]? = some s.lights[i] := List.getElem?_eq_getElem hlen
    have hni : nthLight s i = s.lights[i] := by
      unfold nthLight
      rw [List.getD_eq_getElem?_getD, hsome]
      rfl
    have hmap : (modelStep occ s).lights[i]?
        = some (timer3 s.ctrl (calculate_demand occ s.lights[i])) := by
      show (s.lights.map (fun l => timer3 s.ctrl (calculate_demand occ l)))[i]? = _
      rw [List.getElem?_map, hsome]
      rfl
    have hni2 : nthLight (modelStep occ s) i
        = timer3 s.ctrl (calculate_demand occ s.lights[i]) := by
      unfold nthLight
      rw [List.getD_eq_getElem?_getD, hmap]
      rfl
    rw [hni] at hex
    rw [hni2] at hnex ⊢
    by_cases hg : (calculate_demand occ s.lights[i]).direction = s.ctrl.green_lights
        ∧ s.ctrl.time > 7
    · left
      constructor
      · rw [timer3_wait, if_pos hg]
      · rw [timer3_color, if_pos hg]
    · right
      have hwt : (timer3 s.ctrl (calculate_demand occ s.lights[i])).waiting_time
          = (calculate_demand occ s.lights[i]).waiting_time := by
        rw [timer3_wait, if_neg hg]
      have hb : ((s.lights[i]).waiting_time : Int)
          ≤ ((calculate_demand occ s.lights[i]).waiting_time : Int) := by
        rw [calc_wait]
        split_ifs <;> push_cast <;> omega
      have hD : (modelStep occ s).ctrl.delay_limit
          = (determine_light (lightsStep occ s).lights s.ctrl).delay_limit := rfl
      have hcases := delay_step_cases (lightsStep occ s).lights s.ctrl
      rw [hwt, hD] at hnex
      rw [hD]
      rcases hcases with h | h | h
      · exfalso
        rw [h] at hnex
        omega
      · exfalso
        rw [h] at hnex
        omega
      · exact h

/-- Witness for C5: the override authorizes north for the starved light;
a north light under `northCtrl` is actuated green with reset; and from
`escState` one tick ends the exceedance by escalating the threshold. -/
theorem C5_starvation_pursuit_witness :
    (List.find? (starves initState.ctrl.delay_limit) [starvedLight] = some starvedLight
      ∧ (determine_light [starvedLight] initState.ctrl).green_lights
          = starvedLight.direction)
    ∧ (starvedLight.direction = northCtrl.green_lights
      ∧ northCtrl.time > 7
      ∧ (timer3 northCtrl starvedLight).color = Color.green
      ∧ (timer3 northCtrl starvedLight).waiting_time = 0)
    ∧ (((nthLight escState 0).waiting_time : Int) > escState.ctrl.delay_limit
      ∧ ¬(((nthLight (modelStep (envNone 0) escState) 0).waiting_time : Int)
            > (modelStep (envNone 0) escState).ctrl.delay_limit)
      ∧ 0 < escState.lights.length
      ∧ (((nthLight (modelStep (envNone 0) escState) 0).waiting_time = 0
            ∧ (nthLight (modelStep (envNone 0) escState) 0).color = Color.green)
          ∨ (modelStep (envNone 0) escState).ctrl.delay_limit
              = escState.ctrl.delay_limit + 16)) := by
  refine ⟨⟨by decide, C5_starvation_pursuit.1 [starvedLight] initState.ctrl starvedLight
      (by decide)⟩, ⟨by decide, by decide, ?_⟩, by decide, by decide, by decide, ?_⟩
  · exact C5_starvation_pursuit.2.1 northCtrl starvedLight (by decide) (by decide)
  · exact C5_starvation_pursuit.2.2 (envNone 0) escState 0 (by decide) (by decide) (by decide)

set_option maxRecDepth 4000 in
/-- Counterexample to claim C5 as stated: under `envC5` the north light
at index 7 has `waiting_time` above the threshold at the two consecutive
reachable ticks 61 and 62 (the exceedance survives more than one tick
because the dwell grace keeps the light red). -/
theorem C5_cex :
    Reachable (runFrom envC5 initState 61)
    ∧ ((nthLight (runFrom envC5 initState 61) 7).waiting_time : Int)
        > (runFrom envC5 initState 61).ctrl.delay_limit
    ∧ ((nthLight (runFrom envC5 initState 62) 7).waiting_time : Int)
        > (runFrom envC5 initState 62).ctrl.delay_limit := by
  refine ⟨⟨envC5, 61, rfl⟩, ?_, ?_⟩
  · rw [show (61 : Nat) = 60 + 1 from rfl, runFrom_add, envC5_60]
    decide
  · rw [show (62 : Nat) = 60 + 2 from rfl, runFrom_add, envC5_60]
    decide

/-- Claim C6 (corrected): the decay step runs every tick before the
override; with the threshold above 60 and every light strictly below
`delay_limit - 16` the whole tick lowers the threshold by exactly 16,
but the precise decay condition is `waiting_time ≤ delay_limit - 16`
for every light — a light exactly at `delay_limit - 16` still lets the
decay fire, unlike the claim's strict reading. -/
theorem C6_governor_decay :
    (∀ (lights : List Light) (c : Controller),
        c.delay_limit > 60 →
        (∀ l ∈ lights, (l.waiting_time : Int) < c.delay_limit - 16) →
        (determine_light lights c).delay_limit = c.delay_limit - 16)
    ∧ (∀ (lights : List Light) (c : Controller),
        check_delay_limit lights c =
          (if c.delay_limit > 60
              ∧ ∀ l ∈ lights, (l.waiting_time : Int) ≤ c.delay_limit - 16
            then { c with delay_limit := c.delay_limit - 16 } else c)) := by
  constructor
  · intro lights c h1 h2
    have hc2 : check_delay_limit lights { c with time := c.time + 1 }
        = { c with time := c.time + 1, delay_limit := c.delay_limit - 16 } := by
      rw [check_delay_eq, if_pos ⟨h1, fun l hl => le_of_lt (h2 l hl)⟩]
    have hfind : List.find?
        (starves (check_delay_limit lights { c with time := c.time + 1 }).delay_limit)
        lights = none := by
      rw [hc2, List.find?_eq_none]
      intro l hl
      have h3 := h2 l hl
      simp only [starves, decide_eq_true_eq]
      omega
    unfold determine_light
    dsimp only
    rw [cwl_none lights (check_delay_limit lights { c with time := c.time + 1 }) hfind]
    dsimp only
    rw [if_pos rfl, hysteresis_delay, hc2]
  · exact check_delay_eq

/-- Witness for C6: from threshold 76 with all lights idle, one tick
decays the threshold to 60. -/
theorem C6_governor_decay_witness :
    ((76 : Int) > 60 ∧ ∀ l ∈ initLights, (l.waiting_time : Int) < (76 : Int) - 16)
    ∧ (determine_light initLights ⟨Direction.east, 0, 76⟩).delay_limit = 76 - 16 :=
  ⟨⟨by decide, by decide⟩,
    C6_governor_decay.1 initLights ⟨Direction.east, 0, 76⟩ (by decide) (by decide)⟩

set_option maxRecDepth 4000 in
/-- Counterexample to claim C6 as stated: at tick 70 under `envC6` the
south light at index 10 sits exactly at `delay_limit - 16 = 60`, which
is not strictly below it, yet the decay still fires (76 drops to 60). -/
theorem C6_cex :
    Reachable (runFrom envC6 initState 69)
    ∧ (runFrom envC6 initState 69).ctrl.delay_limit = 76
    ∧ (nthLight (lightsStep (envC6 69) (runFrom envC6 initState 69)) 10).waiting_time = 60
    ∧ ¬((60 : Int) < 76 - 16)
    ∧ (runFrom envC6 initState 70).ctrl.delay_limit = 60 := by
  refine ⟨⟨envC6, 69, rfl⟩, ?_, ?_, by decide, ?_⟩
  · rw [envC6_69]
    decide
  · rw [envC6_69]
    decide
  · rw [show (70 : Nat) = 69 + 1 from rfl, runFrom_add, envC6_69]
    decide

/-- Claim C7 (corrected): the dwell counter is reset to 0 on every
hysteresis switch; on a starvation override it is reset iff the
incremented counter exceeds 8, so an override can change the authorized
direction while leaving the counter unreset. -/
theorem C7_dwell_reset : ∀ (lights : List Light) (c : Controller),
    (∀ l0 : Light, List.find? (starves c.delay_limit) lights = some l0 →
        (determine_light lights c).time = (if c.time + 1 > 8 then 0 else c.time + 1))
    ∧ ((car_waiting_long lights
          (check_delay_limit lights { c with time := c.time + 1 })).2 = false →
        (determine_light lights c).time =
          (if (combine_demands lights c.green_lights : Int)
                < (combine_demands lights
                    (highest_demand (combine_demands lights)) : Int) - 6
              ∧ (∃ l ∈ lights, l.direction = c.green_lights ∧ l.car_waiting = false)
            then 0 else c.time + 1)) := by
  intro lights c
  constructor
  · intro l0 h
    rw [override_result lights c l0 h]
  · intro h
    rw [hysteresis_result lights c h]
    split_ifs with hcond
    · rfl
    · rw [check_delay_time]

/-- Witness for C7: both branches at concrete inputs. -/
theorem C7_dwell_reset_witness :
    (List.find? (starves initState.ctrl.delay_limit) [starvedLight] = some starvedLight
      ∧ (determine_light [starvedLight] initState.ctrl).time
          = (if initState.ctrl.time + 1 > 8 then 0 else initState.ctrl.time + 1))
    ∧ ((car_waiting_long initLights (check_delay_limit initLights
          { initState.ctrl with time := initState.ctrl.time + 1 })).2 = false
      ∧ (determine_light initLights initState.ctrl).time =
          (if (combine_demands initLights initState.ctrl.green_lights : Int)
                < (combine_demands initLights
                    (highest_demand (combine_demands initLights)) : Int) - 6
              ∧ (∃ l ∈ initLights,
                  l.direction = initState.ctrl.green_lights ∧ l.car_waiting = false)
            then 0 else initState.ctrl.time + 1)) :=
  ⟨⟨by decide, (C7_dwell_reset [starvedLight] initState.ctrl).1 starvedLight (by decide)⟩,
   ⟨by decide, (C7_dwell_reset initLights initState.ctrl).2 (by decide)⟩⟩

set_option maxRecDepth 4000 in
/-- Counterexample to claim C7 as stated: during tick 61 under `envC5`
the authorized direction changes west→north through the starvation
override, yet the dwell counter afterwards is 1, not 0 (the override
had `time + 1 = 2 ≤ 8`). -/
theorem C7_cex :
    Reachable (runFrom envC5 initState 61)
    ∧ (runFrom envC5 initState 60).ctrl.green_lights = Direction.west
    ∧ (runFrom envC5 initState 61).ctrl.green_lights = Direction.north
    ∧ ¬((runFrom envC5 initState 61).ctrl.time = 0) := by
  refine ⟨⟨envC5, 61, rfl⟩, ?_, ?_, ?_⟩
  · rw [envC5_60]
    decide
  · rw [show (61 : Nat) = 60 + 1 from rfl, runFrom_add, envC5_60]
    decide
  · rw [show (61 : Nat) = 60 + 1 from rfl, runFrom_add, envC5_60]
    decide

/-- Witness for C10 on an all-tie demand map: the first maximal
direction east is selected. -/
theorem C10_tie_break_witness :
    dirIndex (highest_demand fun _ => 5) ≤ dirIndex Direction.east :=
  C10_tie_break.2.1 (fun _ => 5) Direction.east (by decide)

end Traffic
